import Mathlib

/-!
Verification of the `airtime-service` HTTP layer (`airtime_service/api.py`)
and of the voucher-claim contract of its model layer.

The HTTP handlers in `api.py` are embedded as pure Lean functions.  Request
bodies arrive already decoded (JSON objects as association lists, CSV bodies
via an abstract `parseCSV` split), the MD5 digest is an abstract function
parameter, and the outcome of each `VoucherPool` call is a handler parameter
(the pool lives in `models.py`, which is referenced but not part of the
handler code).  Handlers additionally return the list of pool calls they
performed, so that "no pool operation was invoked" is expressible.

The voucher store itself (`claim_voucher` / `claim_many`) is modelled from
the specification's atomic-claim contract, as noted on the definitions.
-/

namespace AirtimeService

/-- JSON values, the external representation used by every response body. -/
inductive JsonVal where
  | null
  | bool (b : Bool)
  | str (s : String)
  | num (n : Int)
  | arr (elems : List JsonVal)
  | obj (fields : List (String × JsonVal))

/-- An HTTP response: status code plus the fields of the top-level JSON
object of the body. -/
structure Response where
  code : Nat
  body : List (String × JsonVal)

/-- `APIError(message, code)`; the class default for `code` is 500. -/
structure APIError where
  message : String
  code : Nat

/-- `APIError(message)` with the class-default code 500. -/
def mkAPIError (message : String) : APIError :=
  { message := message, code := 500 }

/-- `BadRequestParams(message)`: an `APIError` whose class sets `code = 400`. -/
def BadRequestParams (message : String) : APIError :=
  { message := message, code := 400 }

/-- Exceptions raised by the model layer (`airtime_service.models`), plus a
catch-all for any other non-`APIError` exception. -/
inductive PoolExc where
  | noVoucherPool
  | noVoucherAvailable
  | auditMismatch
  | otherExc (description : String)

/-- A failure reaching the errback: either a model-layer (or other
non-API) exception, or an `APIError` raised by the handler itself. -/
inductive Failure where
  | poolExc (e : PoolExc)
  | apiErr (e : APIError)

/-- `_get_request_id` yields `None` when no request id was stashed; in JSON
that renders as `null`. -/
def optJson : Option String → JsonVal
  | none => JsonVal.null
  | some s => JsonVal.str s

/-- `format_error`: sets the response code from the error and returns
`{request_id: <stashed id or null>, error: <message>}`. -/
def format_error (rid : Option String) (error : APIError) : Response :=
  { code := error.code,
    body := [("request_id", optJson rid), ("error", JsonVal.str error.message)] }

/-- `handle_api_error`: maps a failure to an error response.
`NoVoucherPool` becomes a 404, `AuditMismatch` a 400, any other
non-`APIError` exception a generic 500; an `APIError` is formatted as is. -/
def handle_api_error (rid : Option String) (failure : Failure) : Response :=
  match failure with
  | Failure.poolExc PoolExc.noVoucherPool =>
    format_error rid { message := "Voucher pool does not exist.", code := 404 }
  | Failure.poolExc PoolExc.auditMismatch =>
    format_error rid (BadRequestParams
      "This request has already been performed with different parameters.")
  | Failure.apiErr e => format_error rid e
  | Failure.poolExc _ =>
    format_error rid { message := "Internal server error.", code := 500 }

/-- Python dict assignment `params[k] = v` on an association list: overwrite
the value when the key is present, otherwise append the binding. -/
def setField (fields : List (String × JsonVal)) (k : String) (v : JsonVal) :
    List (String × JsonVal) :=
  if (fields.map Prod.fst).contains k then
    fields.map (fun kv => if kv.1 = k then (k, v) else kv)
  else fields ++ [(k, v)]

/-- `format_response`: the body of a success response, the handler's payload
fields with `request_id` set to the stashed id (or null). -/
def format_response (rid : Option String) (params : List (String × JsonVal)) :
    List (String × JsonVal) :=
  setField params "request_id" (optJson rid)

/-- Python 2 `str.lower()` on a character: ASCII lowercase. -/
def lowerChar (c : Char) : Char :=
  if 'A' ≤ c ∧ c ≤ 'Z' then Char.ofNat (c.toNat + 32) else c

/-- Python 2 `str.lower()`: ASCII lowercase of every character. -/
def pyLower (s : String) : String := String.mk (s.data.map lowerChar)

/-- Byte-wise lexicographic order on character lists, as Python compares
strings. -/
def charsLe : List Char → List Char → Bool
  | [], _ => true
  | _ :: _, [] => false
  | a :: as, b :: bs => if a = b then charsLe as bs else decide (a.toNat < b.toNat)

/-- Lexicographic order on strings. -/
def strLe (a b : String) : Bool := charsLe a.data b.data

/-- Insert into a sorted list of strings. -/
def insertStr (s : String) : List String → List String
  | [] => [s]
  | t :: ts => if strLe s t then s :: t :: ts else t :: insertStr s ts

/-- Python `sorted` on a list of strings (insertion sort). -/
def sortStrings : List String → List String
  | [] => []
  | s :: ss => insertStr s (sortStrings ss)

/-- Surround each string of a sorted list with single quotes and join with
`, ` — the `"', '".join(sorted(xs))` idiom inside `'%s'`. -/
def quotedJoin (xs : List String) : String :=
  "\x27" ++ String.intercalate "\x27, \x27" (sortStrings xs) ++ "\x27"

/-- `_get_params`: fail with a 400 when a mandatory parameter is missing,
then when an unexpected parameter is present; otherwise return the
parameters unchanged. -/
def _get_params {α : Type} (params : List (String × α))
    (mandatory optional : List String) : Except APIError (List (String × α)) :=
  let keys := (params.map Prod.fst).dedup
  let missing := mandatory.dedup.filter (fun m => !(keys.contains m))
  let extra := keys.filter (fun k => !(mandatory.contains k || optional.contains k))
  if !missing.isEmpty then
    Except.error (BadRequestParams ("Missing request parameters: " ++ quotedJoin missing))
  else if !extra.isEmpty then
    Except.error (BadRequestParams ("Unexpected request parameters: " ++ quotedJoin extra))
  else
    Except.ok params

/-- `get_json_params`: `_get_params` over the JSON object decoded from the
request body. -/
def get_json_params (body : List (String × JsonVal))
    (mandatory optional : List String) : Except APIError (List (String × JsonVal)) :=
  _get_params body mandatory optional

/-- Python dict lookup `d[k]` / `k in d` on an association list. -/
def dictGet {α : Type} (d : List (String × α)) (k : String) : Option α :=
  (d.find? (fun kv => kv.1 == k)).map Prod.snd

/-- `vs[0]` on a query-argument value list; an empty list raises
(`IndexError`), which would surface as an internal error. -/
def args_first (vs : List String) : Except Failure String :=
  match vs with
  | [] => Except.error (Failure.poolExc (PoolExc.otherExc "IndexError"))
  | v :: _ => Except.ok v

/-- `dict((k, v[0]) for k, v in params.iteritems())`. -/
def args_to_dict (params : List (String × List String)) :
    Except Failure (List (String × String)) :=
  match params with
  | [] => Except.ok []
  | (k, vs) :: rest =>
    match args_first vs, args_to_dict rest with
    | Except.ok v, Except.ok d => Except.ok ((k, v) :: d)
    | Except.error e, _ => Except.error e
    | Except.ok _, Except.error e => Except.error e

/-- `get_url_params`: when a `request_id` query argument is present its first
value is stashed as the request id before validation; then `_get_params`
validates the arguments and each surviving argument is collapsed to its
first value.  Returns the (possibly updated) stashed request id together
with the outcome. -/
def get_url_params (rid0 : Option String) (args : List (String × List String))
    (mandatory optional : List String) :
    Option String × Except Failure (List (String × String)) :=
  let validated :=
    fun (_ : Unit) =>
      match _get_params args mandatory optional with
      | Except.error e => Except.error (Failure.apiErr e)
      | Except.ok ps => args_to_dict ps
  match dictGet args "request_id" with
  | none => (rid0, validated ())
  | some vs =>
    match args_first vs with
    | Except.error e => (rid0, Except.error e)
    | Except.ok v => (some v, validated ())

/-- A `created_at` database value; `isoformat()` is its stable ISO-8601
string form. -/
structure DateTime where
  iso : String

/-- `row['created_at'].isoformat()`. -/
def DateTime.isoformat (d : DateTime) : String := d.iso

/-- One row of the audit table, as read back by the query operations. -/
structure AuditRow where
  request_id : String
  transaction_id : String
  user_id : String
  request_data : JsonVal
  response_data : JsonVal
  error : JsonVal
  created_at : DateTime

/-- The JSON object built for one audit row by `audit_query`. -/
def auditRowJson (row : AuditRow) : JsonVal :=
  JsonVal.obj [
    ("request_id", JsonVal.str row.request_id),
    ("transaction_id", JsonVal.str row.transaction_id),
    ("user_id", JsonVal.str row.user_id),
    ("request_data", row.request_data),
    ("response_data", row.response_data),
    ("error", row.error),
    ("created_at", JsonVal.str row.created_at.isoformat)]

/-- The pool operations a handler can invoke, recorded as a trace so that
"no pool operation was performed" is a provable statement. -/
inductive PoolCall where
  | issueCall (operator : String) (denomination : JsonVal)
  | queryByRequestId (value : String)
  | queryByTransactionId (value : String)
  | queryByUserId (value : String)
  | importCall (request_id content_md5 : String)
      (rows : List (List (String × String)))

/-- What a handler produced: the pool calls it made, in order, and the HTTP
response. -/
structure HandlerResult where
  poolCalls : List PoolCall
  response : Response

/-- The `issue_voucher` handler.  `request_id` and `operator` come from the
URL; `body` is the decoded JSON request body; `poolResult` is the outcome of
`pool.issue_voucher` (the voucher string of the returned row on success).
The handler stashes the request id, validates the body parameters, calls
the pool, converts `NoVoucherAvailable` into a 200 `APIError`, and otherwise
responds with `{voucher: ...}`. -/
def issue_voucher (request_id operator : String)
    (body : List (String × JsonVal)) (poolResult : Except PoolExc String) :
    HandlerResult :=
  let rid := some request_id
  match get_json_params body ["transaction_id", "user_id", "denomination"] [] with
  | Except.error e =>
    { poolCalls := [], response := handle_api_error rid (Failure.apiErr e) }
  | Except.ok params =>
    let denomination := (dictGet params "denomination").getD JsonVal.null
    let call := PoolCall.issueCall operator denomination
    match poolResult with
    | Except.error PoolExc.noVoucherAvailable =>
      { poolCalls := [call],
        response := handle_api_error rid
          (Failure.apiErr { message := "No voucher available.", code := 200 }) }
    | Except.error e =>
      { poolCalls := [call], response := handle_api_error rid (Failure.poolExc e) }
    | Except.ok voucher =>
      { poolCalls := [call],
        response := { code := 200,
                      body := format_response rid [("voucher", JsonVal.str voucher)] } }

/-- The `audit_query` handler.  `args` are the query arguments; `rows` is
what the dispatched `query_by_*` call returns.  The handler validates the
arguments, rejects any `field` outside the three audit columns before
querying, then dispatches to the matching `query_by_*` operation and
serializes the rows. -/
def audit_query (rid0 : Option String) (args : List (String × List String))
    (rows : List AuditRow) : Option String × HandlerResult :=
  let (rid, paramsE) := get_url_params rid0 args ["field", "value"] ["request_id"]
  match paramsE with
  | Except.error f =>
    (rid, { poolCalls := [], response := handle_api_error rid f })
  | Except.ok params =>
    let field := (dictGet params "field").getD ""
    let value := (dictGet params "value").getD ""
    if !(["request_id", "transaction_id", "user_id"].contains field) then
      (rid, { poolCalls := [],
              response := handle_api_error rid
                (Failure.apiErr (BadRequestParams "Invalid audit field.")) })
    else
      let call :=
        if field == "request_id" then PoolCall.queryByRequestId value
        else if field == "transaction_id" then PoolCall.queryByTransactionId value
        else PoolCall.queryByUserId value
      (rid, { poolCalls := [call],
              response := { code := 200,
                            body := format_response rid
                              [("results", JsonVal.arr (rows.map auditRowJson))] } })

/-- `csv.DictReader` over the body, with rows pre-split into fields: the
first row is the header of field names and each subsequent row is keyed by
it.  (Rows are assumed to have the header's width; the reader's padding of
ragged rows is outside the modelled claims.) -/
def dictReader (rows : List (List String)) : List (List (String × String)) :=
  match rows with
  | [] => []
  | header :: rest => rest.map (fun row => header.zip row)

/-- `lowercase_row_keys`: lowercase every key of every row. -/
def lowercase_row_keys (rows : List (List (String × String))) :
    List (List (String × String)) :=
  rows.map (fun row => row.map (fun kv => (pyLower kv.1, kv.2)))

/-- Modelled from the spec: `pool.import_vouchers` lives in
`airtime_service/models.py`, which is not among the source files; per the
spec the imported columns "must include `operator`, `denomination`,
`voucher`", so the pool accepts a row sequence exactly when every row
carries those three keys. -/
def pool_accepts_rows (rows : List (List (String × String))) : Bool :=
  rows.all (fun row =>
    ["operator", "denomination", "voucher"].all
      (fun c => (row.map Prod.fst).contains c))

/-- The `import_vouchers` handler.  `contentMD5` is the `Content-MD5`
header value (if present), `content` the raw body, `md5hex` the hex MD5
digest function, `parseCSV` the CSV line/field splitter, and `poolResult`
the outcome of `pool.import_vouchers`.  The handler rejects a missing or
mismatched digest before touching the pool, otherwise feeds the
lowercase-keyed rows to the pool and answers 201 `{imported: true}`. -/
def import_vouchers (request_id : String) (contentMD5 : Option String)
    (content : String) (md5hex : String → String)
    (parseCSV : String → List (List String))
    (poolResult : Except PoolExc Unit) : HandlerResult :=
  let rid := some request_id
  match contentMD5 with
  | none =>
    { poolCalls := [],
      response := handle_api_error rid
        (Failure.apiErr (BadRequestParams "Missing Content-MD5 header.")) }
  | some h =>
    let content_md5 := pyLower h
    if content_md5 ≠ pyLower (md5hex content) then
      { poolCalls := [],
        response := handle_api_error rid
          (Failure.apiErr (BadRequestParams "Content-MD5 header does not match content.")) }
    else
      let row_iter := lowercase_row_keys (dictReader (parseCSV content))
      let call := PoolCall.importCall request_id content_md5 row_iter
      match poolResult with
      | Except.error e =>
        { poolCalls := [call],
          response := handle_api_error rid (Failure.poolExc e) }
      | Except.ok _ =>
        { poolCalls := [call],
          response := { code := 201,
                        body := format_response rid [("imported", JsonVal.bool true)] } }

/-- One voucher row of the Store: `(operator, denomination, voucher, used)`
(the pool name is fixed, `created_at` plays no role in claiming). -/
structure VoucherRow where
  operator : String
  denomination : String
  voucher : String
  used : Bool
deriving DecidableEq

/-- The Store's voucher table for one pool. -/
abbrev Store : Type := List VoucherRow

/-- Modelled from the spec: `claim_voucher` / `claim_many` live in
`airtime_service/models.py`, which is not among the source files.  Per the
spec each claim is an atomic read-and-update: select one row with
`used = false` matching the predicate, mark it `used = true`, and return it;
`none` when no row matches.  This is the single primitive both operations
are built from. -/
def claimOne (p : VoucherRow → Bool) : Store → Option (VoucherRow × Store)
  | [] => none
  | r :: rs =>
    if !r.used && p r then
      some (r, { r with used := true } :: rs)
    else
      (claimOne p rs).map (fun cr => (cr.1, r :: cr.2))

/-- Modelled from the spec: `claim_many` atomically marks up to `count`
matching unused rows used and returns them, by iterating the atomic
single-row claim inside one transaction. -/
def claimMany (p : VoucherRow → Bool) : Nat → Store → List VoucherRow × Store
  | 0, st => ([], st)
  | n + 1, st =>
    match claimOne p st with
    | none => ([], st)
    | some (c, st1) =>
      let rest := claimMany p n st1
      (c :: rest.1, rest.2)

/-- The row predicate of `claim_voucher(pool, operator, denomination)`. -/
def issuePred (operator denomination : String) (r : VoucherRow) : Bool :=
  r.operator == operator && r.denomination == denomination

/-- The row predicate of `claim_many`'s optional operator/denomination
filters. -/
def exportPred (operators denominations : Option (List String))
    (r : VoucherRow) : Bool :=
  (match operators with
   | none => true
   | some ops => ops.contains r.operator) &&
  (match denominations with
   | none => true
   | some dens => dens.contains r.denomination)

/-- A committed claim event: an issue, or an export of up to `count` rows.
Since every claim commits atomically, any interleaving of concurrent
requests is observationally a sequence of these events. -/
inductive ClaimOp where
  | issue (operator denomination : String)
  | exportOp (count : Nat) (operators denominations : Option (List String))

/-- Run one committed operation: the voucher strings it returns to its
caller, and the Store after its commit.  An issue that finds no row
(`NoVoucherAvailable`) and an export that claims nothing return `[]`. -/
def runOp (st : Store) : ClaimOp → List String × Store
  | ClaimOp.issue operator denomination =>
    match claimOne (issuePred operator denomination) st with
    | none => ([], st)
    | some (c, st1) => ([c.voucher], st1)
  | ClaimOp.exportOp count operators denominations =>
    let r := claimMany (exportPred operators denominations) count st
    (r.1.map VoucherRow.voucher, r.2)

/-- Run a sequence of committed operations; the per-operation return lists,
aligned with the sequence, and the final Store. -/
def runTrace (st : Store) : List ClaimOp → List (List String) × Store
  | [] => ([], st)
  | o :: os =>
    let r := runOp st o
    let rest := runTrace r.2 os
    (r.1 :: rest.1, rest.2)

/-- The voucher strings of a Store, in row order. -/
def storeStrings (st : Store) : List String :=
  st.map VoucherRow.voucher

/-- The voucher string `v` is marked used in the Store. -/
def usedStr (st : Store) (v : String) : Prop :=
  ∃ r, r ∈ st ∧ r.voucher = v ∧ r.used = true

/-- How a Store may change under claim operations: the voucher strings (in
row order) are untouched, and rows already marked used stay present and
used. -/
def Evolves (st st1 : Store) : Prop :=
  storeStrings st1 = storeStrings st ∧
  ∀ r, r ∈ st → r.used = true → r ∈ st1

lemma Evolves.refl (st : Store) : Evolves st st :=
  ⟨rfl, fun _ hr _ => hr⟩

lemma Evolves.trans {st st1 st2 : Store} (h1 : Evolves st st1)
    (h2 : Evolves st1 st2) : Evolves st st2 :=
  ⟨h2.1.trans h1.1, fun r hr hu => h2.2 r (h1.2 r hr hu) hu⟩

lemma Evolves.usedStr {st st1 : Store} {v : String} (h : Evolves st st1)
    (hv : usedStr st v) : usedStr st1 v := by
  obtain ⟨r, hr, hvv, hu⟩ := hv
  exact ⟨r, h.2 r hr hu, hvv, hu⟩

lemma Evolves.nodup {st st1 : Store} (h : Evolves st st1)
    (hnd : (storeStrings st).Nodup) : (storeStrings st1).Nodup := by
  rw [h.1]; exact hnd

lemma claimOne_eq_some {p : VoucherRow → Bool} :
    ∀ {st st1 : Store} {c : VoucherRow}, claimOne p st = some (c, st1) →
      c ∈ st ∧ c.used = false ∧ Evolves st st1 ∧ ({ c with used := true }) ∈ st1 := by
  intro st
  induction st with
  | nil => intro st1 c h; simp [claimOne] at h
  | cons r rs ih =>
    intro st1 c h
    simp only [claimOne] at h
    by_cases hc : (!r.used && p r) = true
    · rw [if_pos hc] at h
      obtain ⟨hcr, hst1⟩ : c = r ∧ ({ r with used := true } :: rs) = st1 := by
        cases h; exact ⟨rfl, rfl⟩
      simp only [Bool.and_eq_true, Bool.not_eq_true'] at hc
      have hru' : r.used = false := hc.1
      refine ⟨by rw [hcr]; exact List.mem_cons_self r rs, by rw [hcr]; exact hru', ?_, ?_⟩
      · constructor
        · rw [← hst1]; rfl
        · intro r1 hr1 hu1
          rw [← hst1]
          rcases List.mem_cons.mp hr1 with h1 | h1
          · rw [h1] at hu1; rw [hru'] at hu1; cases hu1
          · exact List.mem_cons_of_mem _ h1
      · rw [← hst1, hcr]; exact List.mem_cons_self _ _
    · rw [if_neg hc] at h
      rcases hrec : claimOne p rs with _ | ⟨c1, rs1⟩
      · rw [hrec] at h; exact Option.noConfusion h
      · rw [hrec, Option.map_some'] at h
        obtain ⟨hcc, hst1⟩ : c1 = c ∧ (r :: rs1) = st1 := by
          cases h; exact ⟨rfl, rfl⟩
        subst hst1
        subst hcc
        obtain ⟨hmem, hused, hev, hafter⟩ := ih hrec
        refine ⟨List.mem_cons_of_mem _ hmem, hused, ?_,
          List.mem_cons_of_mem _ hafter⟩
        constructor
        · show r.voucher :: storeStrings rs1 = r.voucher :: storeStrings rs
          rw [hev.1]
        · intro r1 hr1 hu1
          rcases List.mem_cons.mp hr1 with h1 | h1
          · rw [h1]; exact List.mem_cons_self _ _
          · exact List.mem_cons_of_mem _ (hev.2 r1 h1 hu1)

lemma claimOne_evolves {p : VoucherRow → Bool} {st st1 : Store}
    {c : VoucherRow} (h : claimOne p st = some (c, st1)) : Evolves st st1 :=
  (claimOne_eq_some h).2.2.1

lemma claimOne_used_after {p : VoucherRow → Bool} {st st1 : Store}
    {c : VoucherRow} (h : claimOne p st = some (c, st1)) :
    usedStr st1 c.voucher :=
  ⟨{ c with used := true }, (claimOne_eq_some h).2.2.2, rfl, rfl⟩

lemma claimOne_fresh {p : VoucherRow → Bool} {st st1 : Store}
    {c : VoucherRow} (hnd : (storeStrings st).Nodup)
    (h : claimOne p st = some (c, st1)) : ¬ usedStr st c.voucher := by
  obtain ⟨hmem, hused, _, _⟩ := claimOne_eq_some h
  rintro ⟨r, hr, hvv, hu⟩
  have : r = c := List.inj_on_of_nodup_map hnd hr hmem hvv
  rw [this] at hu
  rw [hused] at hu
  cases hu

lemma claimMany_succ_none {p : VoucherRow → Bool} {st : Store} {n : Nat}
    (h : claimOne p st = none) : claimMany p (n + 1) st = ([], st) := by
  simp [claimMany, h]

lemma claimMany_succ_some {p : VoucherRow → Bool} {st st1 : Store}
    {c : VoucherRow} {n : Nat} (h : claimOne p st = some (c, st1)) :
    claimMany p (n + 1) st =
      (c :: (claimMany p n st1).1, (claimMany p n st1).2) := by
  simp [claimMany, h]

lemma claimMany_eq {p : VoucherRow → Bool} :
    ∀ (n : Nat) (st : Store), (storeStrings st).Nodup →
      Evolves st (claimMany p n st).2 ∧
      ∀ c ∈ (claimMany p n st).1,
        ¬ usedStr st c.voucher ∧ usedStr (claimMany p n st).2 c.voucher := by
  intro n
  induction n with
  | zero =>
    intro st _
    refine ⟨Evolves.refl st, ?_⟩
    intro c hc
    simp [claimMany] at hc
  | succ n ih =>
    intro st hnd
    rcases hone : claimOne p st with _ | ⟨c0, stA⟩
    · rw [claimMany_succ_none hone]
      refine ⟨Evolves.refl st, ?_⟩
      intro c hc
      cases hc
    · rw [claimMany_succ_some hone]
      have hev0 : Evolves st stA := claimOne_evolves hone
      obtain ⟨hevA, hretA⟩ := ih stA (hev0.nodup hnd)
      refine ⟨hev0.trans hevA, ?_⟩
      intro c hc
      rcases List.mem_cons.mp hc with hcc | hcc
      · rw [hcc]
        exact ⟨claimOne_fresh hnd hone, hevA.usedStr (claimOne_used_after hone)⟩
      · obtain ⟨hf, hu⟩ := hretA c hcc
        exact ⟨fun hX => hf (hev0.usedStr hX), hu⟩

lemma runOp_issue_none {st : Store} {operator denomination : String}
    (h : claimOne (issuePred operator denomination) st = none) :
    runOp st (ClaimOp.issue operator denomination) = ([], st) := by
  simp [runOp, h]

lemma runOp_issue_some {st st1 : Store} {c : VoucherRow}
    {operator denomination : String}
    (h : claimOne (issuePred operator denomination) st = some (c, st1)) :
    runOp st (ClaimOp.issue operator denomination) = ([c.voucher], st1) := by
  simp [runOp, h]

lemma runOp_export {st : Store} {count : Nat}
    {operators denominations : Option (List String)} :
    runOp st (ClaimOp.exportOp count operators denominations) =
      ((claimMany (exportPred operators denominations) count st).1.map
         VoucherRow.voucher,
       (claimMany (exportPred operators denominations) count st).2) := by
  simp [runOp]

lemma runOp_eq {st : Store} (o : ClaimOp) (hnd : (storeStrings st).Nodup) :
    Evolves st (runOp st o).2 ∧
    ∀ v ∈ (runOp st o).1, ¬ usedStr st v ∧ usedStr (runOp st o).2 v := by
  cases o with
  | issue operator denomination =>
    rcases hone : claimOne (issuePred operator denomination) st with _ | ⟨c, stA⟩
    · rw [runOp_issue_none hone]
      refine ⟨Evolves.refl st, ?_⟩
      intro v hv
      cases hv
    · rw [runOp_issue_some hone]
      refine ⟨claimOne_evolves hone, ?_⟩
      intro v hv
      rw [List.mem_singleton.mp hv]
      exact ⟨claimOne_fresh hnd hone, claimOne_used_after hone⟩
  | exportOp count operators denominations =>
    rw [runOp_export]
    obtain ⟨hev, hret⟩ := claimMany_eq count st hnd
    refine ⟨hev, ?_⟩
    intro v hv
    obtain ⟨c, hc, hcv⟩ := List.mem_map.mp hv
    rw [← hcv]
    exact hret c hc

lemma runTrace_cons {st : Store} {o : ClaimOp} {os : List ClaimOp} :
    runTrace st (o :: os) =
      ((runOp st o).1 :: (runTrace (runOp st o).2 os).1,
       (runTrace (runOp st o).2 os).2) := by
  simp [runTrace]

lemma runTrace_eq :
    ∀ (tr : List ClaimOp) (st : Store), (storeStrings st).Nodup →
      Evolves st (runTrace st tr).2 ∧
      (∀ v ∈ (runTrace st tr).1.flatten,
        ¬ usedStr st v ∧ usedStr (runTrace st tr).2 v) ∧
      List.Pairwise (fun a b => ∀ v, v ∈ a → v ∉ b) (runTrace st tr).1 := by
  intro tr
  induction tr with
  | nil =>
    intro st _
    refine ⟨Evolves.refl st, ?_, List.Pairwise.nil⟩
    intro v hv
    cases hv
  | cons o os ih =>
    intro st hnd
    rw [runTrace_cons]
    obtain ⟨hev0, hret0⟩ := runOp_eq o hnd
    obtain ⟨hev1, hret1, hpw1⟩ := ih (runOp st o).2 (hev0.nodup hnd)
    refine ⟨hev0.trans hev1, ?_, ?_⟩
    · intro v hv
      rcases List.mem_flatten.mp hv with ⟨l, hl, hvl⟩
      rcases List.mem_cons.mp hl with hll | hll
      · rw [hll] at hvl
        obtain ⟨hf, hu⟩ := hret0 v hvl
        exact ⟨hf, hev1.usedStr hu⟩
      · have hvf : v ∈ (runTrace (runOp st o).2 os).1.flatten :=
          List.mem_flatten.mpr ⟨l, hll, hvl⟩
        obtain ⟨hf, hu⟩ := hret1 v hvf
        exact ⟨fun hX => hf (hev0.usedStr hX), hu⟩
    · refine List.Pairwise.cons ?_ hpw1
      intro b hb v hvvs hvb
      have hvf : v ∈ (runTrace (runOp st o).2 os).1.flatten :=
        List.mem_flatten.mpr ⟨b, hb, hvb⟩
      exact (hret1 v hvf).1 ((hret0 v hvvs).2)

/-- C2: an issue request against an existing pool with no matching unused
voucher (the pool raises `NoVoucherAvailable`) gets HTTP status 200 — not an
error status — with body exactly
`{request_id: <the request id>, error: "No voucher available."}`. -/
theorem issue_no_voucher_available_response (request_id operator : String)
    (body params : List (String × JsonVal))
    (h : get_json_params body ["transaction_id", "user_id", "denomination"] []
           = Except.ok params) :
    (issue_voucher request_id operator body
        (Except.error PoolExc.noVoucherAvailable)).response =
      { code := 200,
        body := [("request_id", JsonVal.str request_id),
                 ("error", JsonVal.str "No voucher available.")] } := by
  simp only [issue_voucher, h]
  rfl

/-- Witness for C2 at a concrete request. -/
theorem issue_no_voucher_available_response_witness :
    (issue_voucher "req-0" "Tank"
        [("transaction_id", JsonVal.str "t0"), ("user_id", JsonVal.str "u0"),
         ("denomination", JsonVal.str "blue")]
        (Except.error PoolExc.noVoucherAvailable)).response =
      { code := 200,
        body := [("request_id", JsonVal.str "req-0"),
                 ("error", JsonVal.str "No voucher available.")] } :=
  issue_no_voucher_available_response "req-0" "Tank"
    [("transaction_id", JsonVal.str "t0"), ("user_id", JsonVal.str "u0"),
     ("denomination", JsonVal.str "blue")]
    [("transaction_id", JsonVal.str "t0"), ("user_id", JsonVal.str "u0"),
     ("denomination", JsonVal.str "blue")] rfl

/-- C3: the error-mapping function sends `NoVoucherPool` to a 404 with
message "Voucher pool does not exist.", `AuditMismatch` to a 400 with
message "This request has already been performed with different
parameters.", and any other non-`APIError` exception to a 500 with the
generic "Internal server error." message — independent of the underlying
exception's details. -/
theorem handle_api_error_mapping (rid : Option String) (s : String) :
    handle_api_error rid (Failure.poolExc PoolExc.noVoucherPool) =
      { code := 404,
        body := [("request_id", optJson rid),
                 ("error", JsonVal.str "Voucher pool does not exist.")] } ∧
    handle_api_error rid (Failure.poolExc PoolExc.auditMismatch) =
      { code := 400,
        body := [("request_id", optJson rid),
                 ("error", JsonVal.str
                   "This request has already been performed with different parameters.")] } ∧
    handle_api_error rid (Failure.poolExc (PoolExc.otherExc s)) =
      { code := 500,
        body := [("request_id", optJson rid),
                 ("error", JsonVal.str "Internal server error.")] } ∧
    handle_api_error rid (Failure.poolExc PoolExc.noVoucherAvailable) =
      { code := 500,
        body := [("request_id", optJson rid),
                 ("error", JsonVal.str "Internal server error.")] } :=
  ⟨rfl, rfl, rfl, rfl⟩

/-- C4: an import request whose `Content-MD5` header is absent, or whose
lowercased header value differs from the lowercase hex MD5 digest of the
body, is answered with a 400 and performs no pool call — so no rows are
inserted. -/
theorem import_rejects_bad_md5_before_pool (request_id content : String)
    (contentMD5 : Option String) (md5hex : String → String)
    (parseCSV : String → List (List String)) (poolResult : Except PoolExc Unit)
    (h : ∀ v, contentMD5 = some v → pyLower v ≠ pyLower (md5hex content)) :
    (import_vouchers request_id contentMD5 content md5hex parseCSV
        poolResult).poolCalls = [] ∧
    (import_vouchers request_id contentMD5 content md5hex parseCSV
        poolResult).response.code = 400 := by
  cases contentMD5 with
  | none => exact ⟨rfl, rfl⟩
  | some v =>
    have hv := h v rfl
    simp only [import_vouchers]
    rw [if_pos hv]
    exact ⟨rfl, rfl⟩

/-- Witness for C4 at a concrete mismatching digest. -/
theorem import_rejects_bad_md5_before_pool_witness :
    (import_vouchers "req-7" (some "FF") "body" (fun _ => "aa")
        (fun _ => []) (Except.ok ())).poolCalls = [] ∧
    (import_vouchers "req-7" (some "FF") "body" (fun _ => "aa")
        (fun _ => []) (Except.ok ())).response.code = 400 :=
  import_rejects_bad_md5_before_pool "req-7" "body" (some "FF")
    (fun _ => "aa") (fun _ => []) (Except.ok ())
    (by intro v hv; cases hv; decide)

/-- C9: an import request with a valid digest whose pool import succeeds is
answered with status 201 and body exactly
`{request_id: <the request id>, imported: true}`. -/
theorem import_success_201 (request_id content v : String)
    (md5hex : String → String) (parseCSV : String → List (List String))
    (h : pyLower v = pyLower (md5hex content)) :
    (import_vouchers request_id (some v) content md5hex parseCSV
        (Except.ok ())).response =
      { code := 201,
        body := [("imported", JsonVal.bool true),
                 ("request_id", JsonVal.str request_id)] } := by
  simp only [import_vouchers]
  rw [if_neg (not_not.mpr h)]
  rfl

/-- Witness for C9 at a concrete matching digest. -/
theorem import_success_201_witness :
    (import_vouchers "req-8" (some "AA") "body" (fun _ => "aa")
        (fun _ => []) (Except.ok ())).response =
      { code := 201,
        body := [("imported", JsonVal.bool true),
                 ("request_id", JsonVal.str "req-8")] } :=
  import_success_201 "req-8" "body" "AA" (fun _ => "aa") (fun _ => [])
    (by decide)

/-- C5: every response body is a JSON object carrying a `request_id` field:
a success body is the handler's payload fields with `request_id` set (all
non-`request_id` payload fields kept), and an error body is exactly
`{request_id, error: <message>}` with the error's status code set. -/
theorem response_envelope_request_id (rid : Option String)
    (params : List (String × JsonVal)) (e : APIError) :
    ("request_id" ∈ (format_response rid params).map Prod.fst) ∧
    (∀ kv ∈ params, kv.1 ≠ "request_id" → kv ∈ format_response rid params) ∧
    format_error rid e =
      { code := e.code,
        body := [("request_id", optJson rid),
                 ("error", JsonVal.str e.message)] } := by
  refine ⟨?_, ?_, rfl⟩
  · show "request_id" ∈ (setField params "request_id" (optJson rid)).map Prod.fst
    unfold setField
    by_cases hc : ((params.map Prod.fst).contains "request_id") = true
    · rw [if_pos hc]
      have hmem : "request_id" ∈ params.map Prod.fst := by simpa using hc
      obtain ⟨kv, hkv, hk⟩ := List.mem_map.mp hmem
      rw [List.map_map]
      refine List.mem_map.mpr ⟨kv, hkv, ?_⟩
      simp [Function.comp, hk]
    · rw [if_neg hc, List.map_append]
      exact List.mem_append_right _ (by simp)
  · intro kv hkv hne
    show kv ∈ setField params "request_id" (optJson rid)
    unfold setField
    by_cases hc : ((params.map Prod.fst).contains "request_id") = true
    · rw [if_pos hc]
      refine List.mem_map.mpr ⟨kv, hkv, ?_⟩
      rw [if_neg hne]
    · rw [if_neg hc]
      exact List.mem_append_left _ hkv

/-- Witness for C5 at a concrete payload and error. -/
theorem response_envelope_request_id_witness :
    ("request_id" ∈
      (format_response (some "req-1") [("voucher", JsonVal.str "v0")]).map
        Prod.fst) ∧
    (∀ kv ∈ [("voucher", JsonVal.str "v0")], kv.1 ≠ "request_id" →
      kv ∈ format_response (some "req-1") [("voucher", JsonVal.str "v0")]) ∧
    format_error (some "req-1") (mkAPIError "boom") =
      { code := (mkAPIError "boom").code,
        body := [("request_id", optJson (some "req-1")),
                 ("error", JsonVal.str (mkAPIError "boom").message)] } :=
  response_envelope_request_id (some "req-1") [("voucher", JsonVal.str "v0")]
    (mkAPIError "boom")

/-- C6: parameter validation fails with a 400 exactly when a mandatory
parameter is missing or a parameter outside the mandatory-plus-optional set
is present; when neither holds, the parameters are returned unchanged. -/
theorem get_params_validation {α : Type} (params : List (String × α))
    (mandatory optional : List String) :
    ((∃ e, _get_params params mandatory optional = Except.error e ∧
        e.code = 400) ↔
      ¬ ((∀ m ∈ mandatory, m ∈ params.map Prod.fst) ∧
         (∀ k ∈ params.map Prod.fst, k ∈ mandatory ∨ k ∈ optional))) ∧
    (((∀ m ∈ mandatory, m ∈ params.map Prod.fst) ∧
      (∀ k ∈ params.map Prod.fst, k ∈ mandatory ∨ k ∈ optional)) →
      _get_params params mandatory optional = Except.ok params) := by
  have hA : (mandatory.dedup.filter
        (fun m => !((params.map Prod.fst).dedup.contains m))).isEmpty = true ↔
      ∀ m ∈ mandatory, m ∈ params.map Prod.fst := by
    rw [List.isEmpty_iff, List.filter_eq_nil_iff]
    simp [List.mem_dedup]
  have hB : (((params.map Prod.fst).dedup.filter
        (fun k => !(mandatory.contains k || optional.contains k))).isEmpty = true) ↔
      ∀ k ∈ params.map Prod.fst, k ∈ mandatory ∨ k ∈ optional := by
    rw [List.isEmpty_iff, List.filter_eq_nil_iff]
    simp [List.mem_dedup, or_iff_not_imp_left]
  simp only [_get_params]
  by_cases hm : (mandatory.dedup.filter
      (fun m => !((params.map Prod.fst).dedup.contains m))).isEmpty = true
  · rw [hm]
    by_cases hx : (((params.map Prod.fst).dedup.filter
        (fun k => !(mandatory.contains k || optional.contains k))).isEmpty = true)
    · rw [hx]
      simp only [Bool.not_true, if_false]
      constructor
      · constructor
        · rintro ⟨e, he, _⟩
          cases he
        · intro hn
          exact absurd ⟨hA.mp hm, hB.mp hx⟩ hn
      · intro _
        rfl
    · have hx' : (((params.map Prod.fst).dedup.filter
          (fun k => !(mandatory.contains k || optional.contains k))).isEmpty) = false :=
        Bool.eq_false_iff.mpr hx
      rw [hx']
      simp only [Bool.not_true, Bool.not_false, if_false, if_true]
      constructor
      · constructor
        · intro _
          intro hn
          exact hx (hB.mpr hn.2)
        · intro _
          exact ⟨_, rfl, rfl⟩
      · intro hn
        exact absurd (hB.mpr hn.2) hx
  · have hm' : ((mandatory.dedup.filter
        (fun m => !((params.map Prod.fst).dedup.contains m))).isEmpty) = false :=
      Bool.eq_false_iff.mpr hm
    rw [hm']
    simp only [Bool.not_false, if_true]
    constructor
    · constructor
      · intro _
        intro hn
        exact hm (hA.mpr hn.1)
      · intro _
        exact ⟨_, rfl, rfl⟩
    · intro hn
      exact absurd (hA.mpr hn.1) hm

/-- Witness for C6 at a concrete valid parameter set. -/
theorem get_params_validation_witness :
    ((∃ e, _get_params [("denomination", (1 : Nat))] ["denomination"] []
        = Except.error e ∧ e.code = 400) ↔
      ¬ ((∀ m ∈ ["denomination"],
            m ∈ ([("denomination", (1 : Nat))].map Prod.fst)) ∧
         (∀ k ∈ ([("denomination", (1 : Nat))].map Prod.fst),
            k ∈ ["denomination"] ∨ k ∈ ([] : List String)))) ∧
    (((∀ m ∈ ["denomination"],
         m ∈ ([("denomination", (1 : Nat))].map Prod.fst)) ∧
      (∀ k ∈ ([("denomination", (1 : Nat))].map Prod.fst),
         k ∈ ["denomination"] ∨ k ∈ ([] : List String))) →
      _get_params [("denomination", (1 : Nat))] ["denomination"] []
        = Except.ok [("denomination", (1 : Nat))]) :=
  get_params_validation [("denomination", (1 : Nat))] ["denomination"] []

/-- C7: after URL-parameter validation succeeds, an audit query whose
`field` is not one of `request_id`, `transaction_id`, `user_id` is answered
400 "Invalid audit field." with no query executed; each of the three valid
fields dispatches to the corresponding `query_by_*` operation. -/
theorem audit_query_field_dispatch (rid0 : Option String)
    (args : List (String × List String)) (rows : List AuditRow)
    (rid : Option String) (params : List (String × String))
    (h : get_url_params rid0 args ["field", "value"] ["request_id"] =
          (rid, Except.ok params)) :
    ((dictGet params "field").getD "" ∉
        (["request_id", "transaction_id", "user_id"] : List String) →
      (audit_query rid0 args rows).2.poolCalls = [] ∧
      (audit_query rid0 args rows).2.response =
        { code := 400,
          body := [("request_id", optJson rid),
                   ("error", JsonVal.str "Invalid audit field.")] }) ∧
    ((dictGet params "field").getD "" = "request_id" →
      (audit_query rid0 args rows).2.poolCalls =
        [PoolCall.queryByRequestId ((dictGet params "value").getD "")]) ∧
    ((dictGet params "field").getD "" = "transaction_id" →
      (audit_query rid0 args rows).2.poolCalls =
        [PoolCall.queryByTransactionId ((dictGet params "value").getD "")]) ∧
    ((dictGet params "field").getD "" = "user_id" →
      (audit_query rid0 args rows).2.poolCalls =
        [PoolCall.queryByUserId ((dictGet params "value").getD "")]) := by
  refine ⟨?_, ?_, ?_, ?_⟩
  · intro hne
    have hcond : (¬(dictGet params "field").getD "" = "request_id" ∧
        ¬(dictGet params "field").getD "" = "transaction_id" ∧
        ¬(dictGet params "field").getD "" = "user_id") := by simpa using hne
    constructor <;>
      simp [audit_query, h, hcond.1, hcond.2.1, hcond.2.2, handle_api_error,
        format_error, BadRequestParams]
  · intro hf
    simp [audit_query, h, hf]
  · intro hf
    simp [audit_query, h, hf]
  · intro hf
    simp [audit_query, h, hf]

/-- Witness for C7 at a concrete invalid field and a concrete valid one. -/
theorem audit_query_field_dispatch_witness :
    ((audit_query none [("field", ["bogus"]), ("value", ["x"])] []).2.poolCalls
        = [] ∧
     (audit_query none [("field", ["bogus"]), ("value", ["x"])] []).2.response =
        { code := 400,
          body := [("request_id", optJson none),
                   ("error", JsonVal.str "Invalid audit field.")] }) ∧
    (audit_query none [("field", ["user_id"]), ("value", ["u7"])] []).2.poolCalls
        = [PoolCall.queryByUserId "u7"] :=
  ⟨(audit_query_field_dispatch none [("field", ["bogus"]), ("value", ["x"])]
      [] none [("field", "bogus"), ("value", "x")] rfl).1 (by decide),
   (audit_query_field_dispatch none [("field", ["user_id"]), ("value", ["u7"])]
      [] none [("field", "user_id"), ("value", "u7")] rfl).2.2.2 rfl⟩

/-- C10: when no request id was ever stashed the error body carries
`request_id: null` (the field is present, not absent); a `request_id` query
argument is stashed before validation, so it is echoed in the error body
even when validation then fails. -/
theorem request_id_null_or_echoed :
    (∀ e : APIError, format_error none e =
      { code := e.code,
        body := [("request_id", JsonVal.null),
                 ("error", JsonVal.str e.message)] }) ∧
    (∀ (rid0 : Option String) (args : List (String × List String))
       (mandatory optional : List String) (v : String) (vs : List String),
       dictGet args "request_id" = some (v :: vs) →
       (get_url_params rid0 args mandatory optional).1 = some v) ∧
    (∀ (args : List (String × List String)) (rows : List AuditRow)
       (v : String) (f : Failure),
       get_url_params none args ["field", "value"] ["request_id"] =
         (some v, Except.error f) →
       ∃ msg, (audit_query none args rows).2.response.body =
         [("request_id", JsonVal.str v), ("error", JsonVal.str msg)]) := by
  refine ⟨fun e => rfl, ?_, ?_⟩
  · intro rid0 args mandatory optional v vs h
    simp [get_url_params, h, args_first]
  · intro args rows v f h
    cases f with
    | apiErr e => exact ⟨e.message, by simp [audit_query, h]; rfl⟩
    | poolExc pe =>
      cases pe with
      | noVoucherPool =>
        exact ⟨"Voucher pool does not exist.", by simp [audit_query, h]; rfl⟩
      | noVoucherAvailable =>
        exact ⟨"Internal server error.", by simp [audit_query, h]; rfl⟩
      | auditMismatch =>
        exact ⟨"This request has already been performed with different parameters.",
          by simp [audit_query, h]; rfl⟩
      | otherExc s =>
        exact ⟨"Internal server error.", by simp [audit_query, h]; rfl⟩

/-- Witness for C10: a request whose `request_id` query argument is echoed
although validation fails on the remaining arguments. -/
theorem request_id_null_or_echoed_witness :
    (get_url_params none [("request_id", ["req-9"]), ("bogus", ["1"])]
        ["field", "value"] ["request_id"]).1 = some "req-9" ∧
    ∃ msg, (audit_query none [("request_id", ["req-9"]), ("bogus", ["1"])]
        []).2.response.body =
      [("request_id", JsonVal.str "req-9"), ("error", JsonVal.str msg)] :=
  ⟨request_id_null_or_echoed.2.1 none
      [("request_id", ["req-9"]), ("bogus", ["1"])] ["field", "value"]
      ["request_id"] "req-9" [] rfl,
   request_id_null_or_echoed.2.2 [("request_id", ["req-9"]), ("bogus", ["1"])]
      [] "req-9"
      (Failure.apiErr (BadRequestParams
        ("Missing request parameters: " ++ quotedJoin ["field", "value"])))
      rfl⟩

/-- C8: the first CSV row is the header, every produced row's keys are the
lowercased header names (so column names are case-insensitive), and the
modelled pool accepts the rows exactly when the lowercased columns include
`operator`, `denomination` and `voucher`. -/
theorem csv_import_header_lowercase_columns (header : List String)
    (rest : List (List String))
    (hlen : ∀ r ∈ rest, r.length = header.length) :
    ((lowercase_row_keys (dictReader (header :: rest))).length = rest.length) ∧
    (∀ row ∈ lowercase_row_keys (dictReader (header :: rest)),
      row.map Prod.fst = header.map pyLower) ∧
    (rest ≠ [] →
      (pool_accepts_rows (lowercase_row_keys (dictReader (header :: rest)))
          = true ↔
        ∀ c ∈ (["operator", "denomination", "voucher"] : List String),
          c ∈ header.map pyLower)) := by
  have hkeys : ∀ row ∈ lowercase_row_keys (dictReader (header :: rest)),
      row.map Prod.fst = header.map pyLower := by
    intro row hrow
    simp only [lowercase_row_keys, dictReader, List.map_map, List.mem_map] at hrow
    obtain ⟨r, hr, hrow'⟩ := hrow
    rw [← hrow']
    simp only [Function.comp, List.map_map]
    have hfst : List.map (Prod.fst ∘ fun kv => (pyLower kv.1, kv.2))
        (header.zip r) = List.map (pyLower ∘ Prod.fst) (header.zip r) := rfl
    calc List.map (Prod.fst ∘ fun kv => (pyLower kv.1, kv.2)) (header.zip r)
        = List.map pyLower (List.map Prod.fst (header.zip r)) := by
          rw [hfst, ← List.map_map]
      _ = List.map pyLower header := by
          rw [List.map_fst_zip header r (le_of_eq (hlen r hr).symm)]
  refine ⟨by simp [lowercase_row_keys, dictReader], hkeys, ?_⟩
  intro hne
  rw [pool_accepts_rows, List.all_eq_true]
  constructor
  · intro hall c hc
    obtain ⟨r0, hr0⟩ := List.exists_mem_of_ne_nil rest hne
    have hrow0 : (List.map (fun kv => (pyLower kv.1, kv.2)) (header.zip r0)) ∈
        lowercase_row_keys (dictReader (header :: rest)) := by
      simp only [lowercase_row_keys, dictReader, List.map_map]
      exact List.mem_map.mpr ⟨r0, hr0, rfl⟩
    have h1 := hall _ hrow0
    rw [List.all_eq_true] at h1
    have h2 := h1 c hc
    have h3 : c ∈ (List.map (fun kv => (pyLower kv.1, kv.2))
        (header.zip r0)).map Prod.fst := by simpa using h2
    rw [hkeys _ hrow0] at h3
    exact h3
  · intro hcols row hrow
    rw [List.all_eq_true]
    intro c hc
    have h3 : c ∈ row.map Prod.fst := by
      rw [hkeys row hrow]
      exact hcols c hc
    simpa using h3

/-- Witness for C8 at a concrete mixed-case header. -/
theorem csv_import_header_lowercase_columns_witness :
    ((∀ r ∈ [["Tank", "red", "v0"]],
        r.length = ["Operator", "Denomination", "Voucher"].length)) ∧
    ((lowercase_row_keys (dictReader
        (["Operator", "Denomination", "Voucher"] :: [["Tank", "red", "v0"]]))).length
        = [["Tank", "red", "v0"]].length) ∧
    (∀ row ∈ lowercase_row_keys (dictReader
        (["Operator", "Denomination", "Voucher"] :: [["Tank", "red", "v0"]])),
      row.map Prod.fst = ["Operator", "Denomination", "Voucher"].map pyLower) ∧
    ([["Tank", "red", "v0"]] ≠ ([] : List (List String)) →
      (pool_accepts_rows (lowercase_row_keys (dictReader
          (["Operator", "Denomination", "Voucher"] :: [["Tank", "red", "v0"]])))
          = true ↔
        ∀ c ∈ (["operator", "denomination", "voucher"] : List String),
          c ∈ ["Operator", "Denomination", "Voucher"].map pyLower)) :=
  ⟨by decide,
   csv_import_header_lowercase_columns ["Operator", "Denomination", "Voucher"]
     [["Tank", "red", "v0"]] (by decide)⟩

/-- C1: over any sequence of committed issue/export claim events (the
sequential image of any interleaving of concurrent requests, each claim
being atomic), the voucher sets returned by distinct successful operations
are pairwise disjoint, and every returned voucher is marked `used = true`
in the Store after the final commit.  Assumes the pool's voucher strings
are distinct. -/
theorem claimed_vouchers_disjoint_and_marked_used (st : Store)
    (tr : List ClaimOp) (hnd : (storeStrings st).Nodup) :
    List.Pairwise (fun a b => ∀ v, v ∈ a → v ∉ b) (runTrace st tr).1 ∧
    ∀ v ∈ (runTrace st tr).1.flatten, usedStr (runTrace st tr).2 v := by
  obtain ⟨_, hret, hpw⟩ := runTrace_eq tr st hnd
  exact ⟨hpw, fun v hv => (hret v hv).2⟩

/-- Witness for C1 at a concrete two-voucher pool with an issue trace. -/
theorem claimed_vouchers_disjoint_and_marked_used_witness :
    (storeStrings [⟨"Tank", "red", "Tank-red-0", false⟩,
        ⟨"Tank", "red", "Tank-red-1", false⟩]).Nodup ∧
    (List.Pairwise (fun a b => ∀ v, v ∈ a → v ∉ b)
      (runTrace [⟨"Tank", "red", "Tank-red-0", false⟩,
          ⟨"Tank", "red", "Tank-red-1", false⟩]
        [ClaimOp.issue "Tank" "red", ClaimOp.issue "Tank" "red",
         ClaimOp.exportOp 2 none none]).1 ∧
     ∀ v ∈ (runTrace [⟨"Tank", "red", "Tank-red-0", false⟩,
          ⟨"Tank", "red", "Tank-red-1", false⟩]
        [ClaimOp.issue "Tank" "red", ClaimOp.issue "Tank" "red",
         ClaimOp.exportOp 2 none none]).1.flatten,
       usedStr (runTrace [⟨"Tank", "red", "Tank-red-0", false⟩,
          ⟨"Tank", "red", "Tank-red-1", false⟩]
        [ClaimOp.issue "Tank" "red", ClaimOp.issue "Tank" "red",
         ClaimOp.exportOp 2 none none]).2 v) :=
  ⟨by decide,
   claimed_vouchers_disjoint_and_marked_used
     [⟨"Tank", "red", "Tank-red-0", false⟩,
      ⟨"Tank", "red", "Tank-red-1", false⟩]
     [ClaimOp.issue "Tank" "red", ClaimOp.issue "Tank" "red",
      ClaimOp.exportOp 2 none none] (by decide)⟩

end AirtimeService
